import Mathlib

/-!
Shallow embedding of the RGB matrix display server (src/app.py and
src/pi_server.py): the Job model, the DisplayManager queue and worker loop,
the render routines, and the pi_server per-request handler variant, together
with theorems checking the specification's claims against the embedded code.

Pixel frames are abstracted as natural-number handles (the claims only depend
on which frame is written to the sink, never on pixel contents); durations,
delays and elapsed times are rationals standing for seconds.
-/

namespace RGBMatrixApp

/-- JobType enum from app.py (IMAGE, TEXT, WEATHER, CLEAR, NOOP). -/
inductive JobType where
  | image
  | text
  | weather
  | clear
  | noop
deriving DecidableEq, Repr

/-- Job dataclass from app.py: type, optional duration (None = until
replaced), id (0 until assigned by enqueue), and the kind-dependent payload
fields. -/
structure Job where
  type : JobType
  duration : Option ℚ := none
  id : Nat := 0
  image : Option Nat := none
  gif_frames : Option (List Nat) := none
  frame_delays : Option (List ℚ) := none
  text : Option String := none
  template : Option String := none
deriving DecidableEq, Repr

/-- Queue-level state of a DisplayManager: the FIFO job queue
(queue.Queue: put appends at the back, get takes the front), the current job,
the cancellation event flag and the id counter.  The two ghost fields record
the id sequences needed to state FIFO ordering: ids in enqueue order and ids
in the order the worker pops jobs and hands them to the render dispatch. -/
structure MState where
  jobQ : List Job := []
  currentJob : Option Job := none
  cancelEvt : Bool := false
  nextId : Nat := 1
  enqueuedIds : List Nat := []
  dispatchedIds : List Nat := []
deriving DecidableEq, Repr

/-- The state DisplayManager.__init__ sets up (before any request). -/
def initState : MState := {}

/-- DisplayManager._next_job_id: read the counter and increment it (done
under the manager's lock). -/
def nextJobId (s : MState) : Nat × MState :=
  (s.nextId, { s with nextId := s.nextId + 1 })

/-- DisplayManager.enqueue: assign the next id to the job, put it on the FIFO
queue, return the id.  Total function: the code performs no validation on the
job and has no failure path. -/
def enqueue (s : MState) (j : Job) : Nat × MState :=
  let p := nextJobId s
  (p.1, { p.2 with jobQ := p.2.jobQ ++ [{ j with id := p.1 }],
                   enqueuedIds := p.2.enqueuedIds ++ [p.1] })

/-- DisplayManager.stop_current: set the cancellation event. -/
def stopCurrent (s : MState) : MState := { s with cancelEvt := true }

/-- DisplayManager.clear: enqueue a CLEAR job with no duration. -/
def clearManager (s : MState) : MState :=
  (enqueue s { type := JobType.clear }).2

/-- One atomic step of the system.  Producers (request handlers) enqueue a
job or set the cancellation event; the worker pops the next job — which
clears the cancellation event and publishes the job as current (app.py lines
191-194) — or finishes its current job (the finally block, lines 221-224).
A pop while the queue is empty or while a job is still being rendered, and a
finish with no current job, leave the state unchanged: the worker is blocked
or busy at that point and such a step cannot occur. -/
inductive Act where
  | enq (j : Job)
  | stop
  | pop
  | finish
deriving DecidableEq, Repr

def applyAct (s : MState) : Act → MState
  | Act.enq j => (enqueue s j).2
  | Act.stop => stopCurrent s
  | Act.pop =>
    match s.currentJob, s.jobQ with
    | none, j :: rest =>
      { s with jobQ := rest, currentJob := some j, cancelEvt := false,
               dispatchedIds := s.dispatchedIds ++ [j.id] }
    | none, [] => s
    | some _, _ => s
  | Act.finish =>
    match s.currentJob with
    | some _ => { s with currentJob := none }
    | none => s

/-- Run a finite interleaving of producer and worker steps. -/
def run (s : MState) (acts : List Act) : MState := acts.foldl applyAct s

/-- FIFO invariant: the ids already handed to the render dispatch, followed
by the ids still pending in the queue, are exactly the ids in enqueue
order. -/
def fifoInv (s : MState) : Prop :=
  s.dispatchedIds ++ s.jobQ.map Job.id = s.enqueuedIds

theorem applyAct_fifoInv (s : MState) (a : Act) (h : fifoInv s) :
    fifoInv (applyAct s a) := by
  cases a with
  | enq j =>
    simp only [fifoInv, applyAct, enqueue, nextJobId] at h ⊢
    simp [← h]
  | stop => simpa [fifoInv, applyAct, stopCurrent] using h
  | pop =>
    cases hc : s.currentJob with
    | some j => simpa [fifoInv, applyAct, hc] using h
    | none =>
      cases hq : s.jobQ with
      | nil => simpa [fifoInv, applyAct, hc, hq] using h
      | cons j rest =>
        simp only [fifoInv, applyAct, hc, hq] at h ⊢
        simpa using h
  | finish =>
    cases hc : s.currentJob with
    | some j => simpa [fifoInv, applyAct, hc] using h
    | none => simpa [fifoInv, applyAct, hc] using h

theorem run_fifoInv (acts : List Act) (s : MState) (h : fifoInv s) :
    fifoInv (run s acts) := by
  induction acts generalizing s with
  | nil => simpa [run] using h
  | cons a rest ih =>
    have h1 : fifoInv (applyAct s a) := applyAct_fifoInv s a h
    simpa [run] using ih (applyAct s a) h1

/-- C1: for every finite interleaving of enqueues, cancellations and worker
steps starting from the initial manager state, the sequence of job ids the
worker has popped and handed to the render dispatch, followed by the ids
still pending in the FIFO queue, equals the enqueue-order id sequence: jobs
are dispatched in strict FIFO enqueue order, with no reordering and no
priority. -/
theorem C1_fifo_order (acts : List Act) :
    (run initState acts).dispatchedIds ++ ((run initState acts).jobQ.map Job.id)
      = (run initState acts).enqueuedIds := by
  have h : fifoInv initState := by simp [fifoInv, initState]
  exact run_fifoInv acts initState h

/-- C6: the worker clears the cancellation event when it pops a job, before
the job's render routine runs, so the popped job always starts with an unset
signal; and setting the cancellation event while no job is current has no
effect on the subsequently popped job — stop-then-pop reaches exactly the
same state as pop alone. -/
theorem C6_cancel_cleared_on_pop (s : MState) (j : Job) (rest : List Job)
    (hcur : s.currentJob = none) (hq : s.jobQ = j :: rest) :
    (applyAct s Act.pop).cancelEvt = false ∧
    (applyAct s Act.pop).currentJob = some j ∧
    applyAct (applyAct s Act.stop) Act.pop = applyAct s Act.pop := by
  refine ⟨?_, ?_, ?_⟩ <;>
    simp [applyAct, stopCurrent, hcur, hq]

/-- Witness for C6 at a concrete state: one TEXT job pending, no current
job. -/
theorem C6_witness :
    ((applyAct { jobQ := [{ type := JobType.text, id := 1 }] } Act.pop).cancelEvt = false ∧
     (applyAct { jobQ := [{ type := JobType.text, id := 1 }] } Act.pop).currentJob
       = some { type := JobType.text, id := 1 } ∧
     applyAct (applyAct { jobQ := [{ type := JobType.text, id := 1 }] } Act.stop) Act.pop
       = applyAct { jobQ := [{ type := JobType.text, id := 1 }] } Act.pop) :=
  C6_cancel_cleared_on_pop { jobQ := [{ type := JobType.text, id := 1 }] }
    { type := JobType.text, id := 1 } [] rfl rfl

/-- Events observable at the pixel sink together with the sleeps between
them: a still or animation frame write, a scrolled-viewport write (offset and
the source-column indices shown), a blank, or a sleep of d seconds. -/
inductive GEv where
  | write (f : Nat)
  | writeSlice (offset : Nat) (cols : List Nat)
  | sleep (d : ℚ)
  | clearScreen
deriving DecidableEq, Repr

/-- How a render routine (or the worker loop) left off: it returned, it is
still looping after the observed number of steps, or it raised a Python
exception. -/
inductive Outcome where
  | finished
  | running
  | errored
deriving DecidableEq, Repr

/-- The loop condition shared by the render routines, negated: the loops run
while not cancel_evt.is_set() and (duration is None or elapsed < duration),
so they exit exactly when cancel OR (duration is set AND elapsed >=
duration). -/
def exitCond (cancel : Bool) (duration : Option ℚ) (elapsed : ℚ) : Bool :=
  cancel || (match duration with
             | none => false
             | some d => decide (d ≤ elapsed))

/-- The hold loop of DisplayManager._display_image (app.py lines 123-124):
poll the exit condition, sleeping 50 ms per iteration.  cancel k is the value
the k-th poll of the cancellation event returns; elapsed advances by the
sleep length.  Fuel bounds the number of observed iterations; running fuel
out means the loop was still going. -/
def imageHold (cancel : Nat → Bool) (duration : Option ℚ) :
    Nat → ℚ → Nat → List GEv × Outcome
  | _, _, 0 => ([], Outcome.running)
  | k, elapsed, fuel + 1 =>
    if exitCond (cancel k) duration elapsed then ([], Outcome.finished)
    else
      let rest := imageHold cancel duration (k + 1) (elapsed + 1/20) fuel
      (GEv.sleep (1/20) :: rest.1, rest.2)

/-- DisplayManager._display_image: fit the image and write it to the sink
unconditionally (lines 117-121, before any check of the exit condition),
then enter the hold loop. -/
def displayImage (cancel : Nat → Bool) (duration : Option ℚ) (f : Nat)
    (fuel : Nat) : List GEv × Outcome :=
  let rest := imageHold cancel duration 0 0 fuel
  (GEv.write f :: rest.1, rest.2)

/-- DisplayManager._display_gif (app.py lines 126-143): starting at frame
index 0, each iteration checks the exit condition, writes frames[i], sleeps
max(0.01, delays[i]) and advances i = (i + 1) mod len(frames).  frames[i] is
looked up and written first and delays[i] only afterwards, so a delays list
shorter than the current index raises IndexError after the write — reported
as Outcome.errored after the write event. -/
def gifRun (cancel : Nat → Bool) (duration : Option ℚ) (frames : List Nat)
    (delays : List ℚ) : Nat → Nat → ℚ → Nat → List GEv × Outcome
  | _, _, _, 0 => ([], Outcome.running)
  | k, i, elapsed, fuel + 1 =>
    if exitCond (cancel k) duration elapsed then ([], Outcome.finished)
    else
      match frames.get? i with
      | none => ([], Outcome.errored)
      | some f =>
        match delays.get? i with
        | none => ([GEv.write f], Outcome.errored)
        | some d0 =>
          let d := max (1/100) d0
          let rest := gifRun cancel duration frames delays (k + 1)
            ((i + 1) % frames.length) (elapsed + d) fuel
          (GEv.write f :: GEv.sleep d :: rest.1, rest.2)

/-- The frame extracted at scroll offset x in _display_text_scroll (app.py
lines 164-173): the crop [x, x+w) of the pre-rendered strip while the window
stays inside the strip of physical width stripW (the code always allocates a
1000 px wide image), otherwise the composite of the tail [x, stripW) and the
head [0, w - (stripW - x)).  A frame is represented by the list of
source-column indices it shows. -/
def stripSlice (stripW x w : Nat) : List Nat :=
  if x + w ≤ stripW then (List.range w).map (fun c => x + c)
  else ((List.range (stripW - x)).map (fun c => x + c)) ++
    List.range (w - (stripW - x))

/-- The loop of DisplayManager._display_text_scroll (app.py lines 161-176):
each iteration checks the exit condition, then advances
x = (x + 1) % (textW + w) BEFORE extracting and writing the frame at the new
offset, then sleeps 20 ms.  textW is int(text_w), the measured text width;
stripW is the physical width of the pre-rendered strip image; w is the
viewport (matrix) width. -/
def scrollRun (cancel : Nat → Bool) (duration : Option ℚ)
    (textW stripW w : Nat) : Nat → Nat → ℚ → Nat → List GEv × Outcome
  | _, _, _, 0 => ([], Outcome.running)
  | k, x, elapsed, fuel + 1 =>
    if exitCond (cancel k) duration elapsed then ([], Outcome.finished)
    else
      let x2 := (x + 1) % (textW + w)
      let rest := scrollRun cancel duration textW stripW w (k + 1) x2
        (elapsed + 1/50) fuel
      (GEv.writeSlice x2 (stripSlice stripW x2 w) :: GEv.sleep (1/50) ::
        rest.1, rest.2)

/-- DisplayManager._display_text_scroll: the strip image is allocated 1000 px
wide and x starts at 0.  Glyph rasterization and text measurement are
external (Pillow); textW is the measured width. -/
def displayTextScroll (cancel : Nat → Bool) (duration : Option ℚ)
    (textW w : Nat) (fuel : Nat) : List GEv × Outcome :=
  scrollRun cancel duration textW 1000 w 0 0 0 fuel

/-- DisplayManager._display_weather_template: render one placeholder frame
from the template (the Pillow drawing is external, abstracted by the
renderWeather parameter) and delegate to _display_image. -/
def displayWeatherTemplate (renderWeather : String → Nat)
    (cancel : Nat → Bool) (duration : Option ℚ) (template : String)
    (fuel : Nat) : List GEv × Outcome :=
  displayImage cancel duration (renderWeather template) fuel

/-- C3 counterexample: the static-image routine does not check the exit
condition before its frame write.  With the cancellation signal already set
at entry the exit condition holds before any write, yet _display_image still
writes its frame to the sink (the SetImage on line 119 precedes the first
check of the loop condition on line 123). -/
theorem C3_counterexample :
    exitCond ((fun _ => true) 0) (some 1) 0 = true ∧
    (displayImage (fun _ => true) (some 1) 7 1).1 = [GEv.write 7] := by
  exact ⟨rfl, rfl⟩

/-- C3 amended: the looping routines (animated image, scrolling text) and
the hold loop of the static-image routine check the exit condition
cancel OR (duration set AND elapsed >= duration) at the top of every
iteration and return as soon as it holds, so no animation or scroll frame is
written once it holds; the static-image routine (and hence the weather
routine, which delegates to it) writes its single frame unconditionally
BEFORE the hold loop; and with the signal unset and duration = None every
routine keeps running for any number of steps — a duration=None job never
self-expires. -/
theorem C3_exit_condition :
    (∀ (cancel : Nat → Bool) (duration : Option ℚ) (frames : List Nat)
       (delays : List ℚ) (k i : Nat) (e : ℚ) (fuel : Nat),
       exitCond (cancel k) duration e = true →
       gifRun cancel duration frames delays k i e (fuel + 1)
         = ([], Outcome.finished)) ∧
    (∀ (cancel : Nat → Bool) (duration : Option ℚ) (textW stripW w k x : Nat)
       (e : ℚ) (fuel : Nat),
       exitCond (cancel k) duration e = true →
       scrollRun cancel duration textW stripW w k x e (fuel + 1)
         = ([], Outcome.finished)) ∧
    (∀ (cancel : Nat → Bool) (duration : Option ℚ) (k : Nat) (e : ℚ)
       (fuel : Nat),
       exitCond (cancel k) duration e = true →
       imageHold cancel duration k e (fuel + 1) = ([], Outcome.finished)) ∧
    (∀ (cancel : Nat → Bool) (duration : Option ℚ) (f : Nat) (fuel : Nat),
       (displayImage cancel duration f fuel).1.take 1 = [GEv.write f]) ∧
    (∀ (renderWeather : String → Nat) (cancel : Nat → Bool)
       (duration : Option ℚ) (t : String) (fuel : Nat),
       displayWeatherTemplate renderWeather cancel duration t fuel
         = displayImage cancel duration (renderWeather t) fuel) ∧
    (∀ (k : Nat) (e : ℚ) (fuel : Nat),
       (imageHold (fun _ => false) none k e fuel).2 = Outcome.running) ∧
    (∀ (frames : List Nat) (delays : List ℚ), frames ≠ [] →
       delays.length = frames.length →
       ∀ (k i : Nat) (e : ℚ) (fuel : Nat), i < frames.length →
       (gifRun (fun _ => false) none frames delays k i e fuel).2
         = Outcome.running) ∧
    (∀ (textW stripW w k x : Nat) (e : ℚ) (fuel : Nat),
       (scrollRun (fun _ => false) none textW stripW w k x e fuel).2
         = Outcome.running) := by
  refine ⟨?_, ?_, ?_, ?_, ?_, ?_, ?_, ?_⟩
  · intro cancel duration frames delays k i e fuel h
    simp [gifRun, h]
  · intro cancel duration textW stripW w k x e fuel h
    simp [scrollRun, h]
  · intro cancel duration k e fuel h
    simp [imageHold, h]
  · intro cancel duration f fuel
    simp [displayImage]
  · intro renderWeather cancel duration t fuel
    rfl
  · intro k e fuel
    induction fuel generalizing k e with
    | zero => simp [imageHold]
    | succ n ih => simpa [imageHold, exitCond] using ih (k + 1) (e + 1/20)
  · intro frames delays h1 h2 k i e fuel hi
    induction fuel generalizing k i e with
    | zero => simp [gifRun]
    | succ n ih =>
      have hd : i < delays.length := h2 ▸ hi
      have hf : frames[i]? = some frames[i] := List.getElem?_eq_getElem hi
      have hdl : delays[i]? = some delays[i] := List.getElem?_eq_getElem hd
      have hlen : 0 < frames.length := List.length_pos.mpr h1
      have hi2 : (i + 1) % frames.length < frames.length := Nat.mod_lt _ hlen
      simpa [gifRun, exitCond, hf, hdl] using
        ih (k + 1) ((i + 1) % frames.length)
          (e + max ((100 : ℚ)⁻¹) delays[i]) hi2
  · intro textW stripW w k x e fuel
    induction fuel generalizing k x e with
    | zero => simp [scrollRun]
    | succ n ih =>
      simpa [scrollRun, exitCond] using
        ih (k + 1) ((x + 1) % (textW + w)) (e + 1/50)

/-- Witness for C3 at concrete inputs: each guarded-exit conjunct discharged
with the signal set and each never-self-expires conjunct with the signal
unset and no duration. -/
theorem C3_witness :
    gifRun (fun _ => true) (some 1) [5] [1/10] 0 0 0 3
      = ([], Outcome.finished) ∧
    scrollRun (fun _ => true) (some 1) 50 1000 20 0 0 0 3
      = ([], Outcome.finished) ∧
    imageHold (fun _ => true) (some 1) 0 0 3 = ([], Outcome.finished) ∧
    (displayImage (fun _ => false) none 9 2).1.take 1 = [GEv.write 9] ∧
    displayWeatherTemplate (fun _ => 4) (fun _ => false) none "current" 2
      = displayImage (fun _ => false) none 4 2 ∧
    (imageHold (fun _ => false) none 0 0 5).2 = Outcome.running ∧
    (gifRun (fun _ => false) none [5, 6] [1/10, 1/5] 0 0 0 5).2
      = Outcome.running ∧
    (scrollRun (fun _ => false) none 50 1000 20 0 0 0 5).2
      = Outcome.running :=
  ⟨C3_exit_condition.1 _ _ _ _ _ _ _ 2 rfl,
   C3_exit_condition.2.1 _ _ _ _ _ _ _ _ 2 rfl,
   C3_exit_condition.2.2.1 _ _ _ _ 2 rfl,
   C3_exit_condition.2.2.2.1 _ _ 9 2,
   C3_exit_condition.2.2.2.2.1 _ _ _ "current" 2,
   C3_exit_condition.2.2.2.2.2.1 0 0 5,
   C3_exit_condition.2.2.2.2.2.2.1 [5, 6] [1/10, 1/5] (by simp) (by simp)
     0 0 0 5 (by simp),
   C3_exit_condition.2.2.2.2.2.2.2 50 1000 20 0 0 0 5⟩

theorem gifRun_no_exit (frames : List Nat) (delays : List ℚ)
    (h1 : frames ≠ []) (h2 : delays.length = frames.length) :
    ∀ (fuel k i : Nat) (e : ℚ), i < frames.length →
    gifRun (fun _ => false) none frames delays k i e fuel =
      ((List.range fuel).flatMap (fun j =>
        [GEv.write (frames.getD ((i + j) % frames.length) 0),
         GEv.sleep (max (1/100) (delays.getD ((i + j) % frames.length) 0))]),
       Outcome.running) := by
  intro fuel
  induction fuel with
  | zero =>
    intro k i e hi
    simp [gifRun]
  | succ n ih =>
    intro k i e hi
    have hd : i < delays.length := h2 ▸ hi
    have hf : frames[i]? = some frames[i] := List.getElem?_eq_getElem hi
    have hdl : delays[i]? = some delays[i] := List.getElem?_eq_getElem hd
    have hlen : 0 < frames.length := List.length_pos.mpr h1
    have hi2 : (i + 1) % frames.length < frames.length := Nat.mod_lt _ hlen
    have hrest := ih (k + 1) ((i + 1) % frames.length)
      (e + max ((100 : ℚ)⁻¹) delays[i]) hi2
    have hmod : ∀ j : Nat, ((i + 1) % frames.length + j) % frames.length
        = (i + (j + 1)) % frames.length := by
      intro j
      rw [Nat.mod_add_mod]
      congr 1
      omega
    have hgetf : frames.getD (i % frames.length) 0 = frames[i] := by
      rw [Nat.mod_eq_of_lt hi]
      exact List.getD_eq_getElem frames 0 hi
    have hgetd : delays.getD (i % frames.length) 0 = delays[i] := by
      rw [Nat.mod_eq_of_lt hi]
      exact List.getD_eq_getElem delays 0 hd
    rw [List.range_succ_eq_map]
    simp only [gifRun, exitCond, List.get?_eq_getElem?]
    rw [hf, hdl]
    simp [hrest, List.flatMap_map, hmod, Nat.mod_eq_of_lt hi, hf, hdl,
      hgetf, hgetd]

/-- C7: the animated-image routine, left uninterrupted (signal unset,
duration None), writes frames in index order with wraparound starting at
frame 0: over the first fuel iterations, iteration j writes frame
(j mod frameCount) and then holds for max(10 ms, its own declared delay) —
independent of the sequence length, and the routine is still running after
any number of iterations. -/
theorem C7_gif_cycle (frames : List Nat) (delays : List ℚ)
    (h1 : frames ≠ []) (h2 : delays.length = frames.length) (fuel : Nat) :
    gifRun (fun _ => false) none frames delays 0 0 0 fuel =
      ((List.range fuel).flatMap (fun j =>
        [GEv.write (frames.getD (j % frames.length) 0),
         GEv.sleep (max (1/100) (delays.getD (j % frames.length) 0))]),
       Outcome.running) := by
  have h := gifRun_no_exit frames delays h1 h2 fuel 0 0 0
    (List.length_pos.mpr h1)
  simpa using h

/-- Witness for C7: the specification's own example, a 3-frame sequence with
delays [0.1, 0.2, 0.05] — displayed order frame0, frame1, frame2, frame0,
with each hold equal to the frame's clamped delay. -/
theorem C7_witness :
    gifRun (fun _ => false) none [30, 31, 32] [1/10, 1/5, 1/20] 0 0 0 4 =
      ([GEv.write 30, GEv.sleep (1/10), GEv.write 31, GEv.sleep (1/5),
        GEv.write 32, GEv.sleep (1/20), GEv.write 30, GEv.sleep (1/10)],
       Outcome.running) := by
  rw [C7_gif_cycle [30, 31, 32] [1/10, 1/5, 1/20] (by simp) (by simp) 4]
  norm_num [List.range_succ, max_def]

theorem scrollRun_no_exit (textW stripW w : Nat) :
    ∀ (fuel k x : Nat) (e : ℚ),
    scrollRun (fun _ => false) none textW stripW w k x e fuel =
      ((List.range fuel).flatMap (fun n =>
        [GEv.writeSlice ((x + n + 1) % (textW + w))
           (stripSlice stripW ((x + n + 1) % (textW + w)) w),
         GEv.sleep (1/50)]),
       Outcome.running) := by
  intro fuel
  induction fuel with
  | zero =>
    intro k x e
    simp [scrollRun]
  | succ n ih =>
    intro k x e
    have hrest := ih (k + 1) ((x + 1) % (textW + w)) (e + 1/50)
    have hmod : ∀ j : Nat, ((x + 1) % (textW + w) + j + 1) % (textW + w)
        = (x + (j + 1) + 1) % (textW + w) := by
      intro j
      rw [Nat.add_assoc, Nat.mod_add_mod]
      congr 1
      omega
    rw [List.range_succ_eq_map]
    simp only [scrollRun, exitCond, hrest, List.flatMap_cons,
      List.flatMap_map, hmod, Nat.add_zero, Nat.succ_eq_add_one]
    simp

/-- Modelled from the spec: the frame C8 describes — the slice
[x, x+viewportWidth) of the logical strip of width textWidth, wrapping
around the logical strip's right edge by concatenating the tail and head
slices.  The code instead slices the 1000 px physical strip image, so this
definition exists only to compare the claim's words with the code. -/
def specScrollFrame (textW x w : Nat) : List Nat := stripSlice textW x w

/-- C8 counterexample, at the claim's own instance textWidth=50,
viewportWidth=20.  First, the offset sequence: x is advanced BEFORE the
first frame is extracted (app.py line 163 precedes line 167), so the first
displayed offset is 1, not 0 — the displayed sequence is 1,2,...,69,0,1,...
rather than 0,1,...,69,0,....  Second, the displayed frame at offset 40 is
the plain crop [40, 60) of the 1000 px physical strip (the crop-bound test
on line 166 compares against img.width = 1000), not the claimed wraparound
composite of the logical strip of width 50, which would show columns
40..49 followed by columns 0..9. -/
theorem C8_counterexample :
    ((scrollRun (fun _ => false) none 50 1000 20 0 0 0 1).1.filterMap
      (fun ev => match ev with
        | GEv.writeSlice x _ => some x
        | _ => none)) = [1] ∧
    [1] ≠ [0] ∧
    stripSlice 1000 40 20 ≠ specScrollFrame 50 40 20 := by
  refine ⟨?_, by decide, by decide⟩
  decide

/-- C8 amended: in _display_text_scroll the scroll offset advances by
x = (x + 1) mod (textWidth + viewportWidth) at each fixed 20 ms tick, with
the advance happening before the frame extraction, so the n-th displayed
offset is (n + 1) mod (textWidth + viewportWidth) — for textWidth=50 and
viewportWidth=20 the displayed offsets are 1,2,...,69,0,1,... (mod 70); each
displayed frame is the slice [x, x + viewportWidth) of the 1000 px physical
strip image, with the tail-and-head composite only when the window crosses
the physical strip's right edge (x + viewportWidth > 1000), and with the
signal unset and duration None the routine runs forever. -/
theorem C8_scroll_offsets (textW w fuel : Nat) :
    displayTextScroll (fun _ => false) none textW w fuel =
      ((List.range fuel).flatMap (fun n =>
        [GEv.writeSlice ((n + 1) % (textW + w))
           (stripSlice 1000 ((n + 1) % (textW + w)) w),
         GEv.sleep (1/50)]),
       Outcome.running) := by
  have h := scrollRun_no_exit textW 1000 w fuel 0 0 0
  simpa [displayTextScroll] using h

/-- Python truthiness of job.gif_frames (app.py line 205): None and the
empty list are falsy. -/
def truthyFrames : Option (List Nat) → Bool
  | none => false
  | some fs => !fs.isEmpty

/-- job.frame_delays or [0.07]*len(job.gif_frames) (app.py line 206): the
Python or takes the right operand when frame_delays is None or the empty
list. -/
def delaysOrDefault (fd : Option (List ℚ)) (n : Nat) : List ℚ :=
  match fd with
  | none => List.replicate n (7/100)
  | some ds => if ds.isEmpty then List.replicate n (7/100) else ds

/-- Python s or d for optional strings (app.py lines 213 and 216): None and
the empty string are falsy. -/
def pyOrStr (s : Option String) (d : String) : String :=
  match s with
  | none => d
  | some t => if t = "" then d else t

/-- The dispatch on job.type inside the worker loop (app.py lines 196-219).
measure is the external Pillow text-width measurement and renderWeather the
external weather-frame rendering; the viewport width is 64, the
DisplayManager() default. -/
def dispatch (measure renderWeather : String → Nat) (cancel : Nat → Bool)
    (job : Job) (fuel : Nat) : List GEv × Outcome :=
  match job.type with
  | JobType.clear => ([GEv.clearScreen, GEv.sleep (1/20)], Outcome.finished)
  | JobType.image =>
    if truthyFrames job.gif_frames then
      let fs := job.gif_frames.getD []
      gifRun cancel job.duration fs
        (delaysOrDefault job.frame_delays fs.length) 0 0 0 fuel
    else
      match job.image with
      | some f => displayImage cancel job.duration f fuel
      | none => ([], Outcome.finished)
  | JobType.text =>
    scrollRun cancel job.duration (measure (pyOrStr job.text "")) 1000 64
      0 0 0 fuel
  | JobType.weather =>
    displayWeatherTemplate renderWeather cancel job.duration
      (pyOrStr job.template "default") fuel
  | JobType.noop => ([GEv.sleep (1/100)], Outcome.finished)

/-- How a run of the worker loop ended: blocked on an empty queue, still
rendering a job, or dead because a render routine raised. -/
inductive WOut where
  | idle
  | busy
  | crashed
deriving DecidableEq, Repr

/-- The worker loop (app.py lines 189-224) run over a queue of jobs with the
given per-job fuel.  Each iteration pops a job, clears the cancellation
signal, publishes the job as current, dispatches on its type, and in a
finally block clears the current job and calls task_done.  The try statement
has NO except clause: when a routine raises, the finally block still runs
(so the current job is cleared) but the exception propagates out of _worker
and the thread terminates — the remaining queued jobs are never dispatched.
Returns the per-job event traces (job id paired with its events), then the
current job at the end and how the loop ended. -/
def workerRun (measure renderWeather : String → Nat) (cancel : Nat → Bool)
    (fuel : Nat) : List Job → List (Nat × List GEv) × (Option Job × WOut)
  | [] => ([], (none, WOut.idle))
  | j :: rest =>
    let r := dispatch measure renderWeather cancel j fuel
    match r.2 with
    | Outcome.finished =>
      let t := workerRun measure renderWeather cancel fuel rest
      ((j.id, r.1) :: t.1, t.2)
    | Outcome.running => ([(j.id, r.1)], (some j, WOut.busy))
    | Outcome.errored => ([(j.id, r.1)], (none, WOut.crashed))

/-- C2 (code bug): a job whose render routine raises mid-job kills the
worker thread permanently.  The IMAGE job here has two animation frames but
only one frame delay, so _display_gif writes frame 3, sleeps, writes frame
4, and then delays[1] raises IndexError; the worker's try statement has a
finally clause but no except clause, so the current job is cleared but the
exception propagates out of _worker, the loop ends crashed, and the queued
CLEAR job (id 2) is never dispatched — contradicting the claimed
catch-at-loop-boundary semantics. -/
theorem C2_worker_crash :
    workerRun (fun _ => 50) (fun _ => 0) (fun _ => false) 3
      [{ type := JobType.image, id := 1, gif_frames := some [3, 4],
         frame_delays := some [1/10] },
       { type := JobType.clear, id := 2 }]
      = ([(1, [GEv.write 3, GEv.sleep (1/10), GEv.write 4])],
         (none, WOut.crashed)) := by
  norm_num [workerRun, dispatch, truthyFrames, delaysOrDefault, gifRun,
    exitCond, max_def]

/-- C10: an IMAGE job carrying neither a still image nor animation frames
dispatches to the missing-content branch (app.py line 210): no frame is
written, no exception is raised, and the worker proceeds to the next queued
job with the current job cleared; and when both payloads are present and the
frame list is non-empty, the animation branch takes priority over the still
image (line 205 is tested before line 207). -/
theorem C10_image_missing_payload (measure renderWeather : String → Nat)
    (cancel : Nat → Bool) (fuel : Nat) (j j2 : Job) (rest : List Job)
    (fs : List Nat) (f : Nat)
    (ht : j.type = JobType.image) (hi : j.image = none)
    (hg : j.gif_frames = none)
    (ht2 : j2.type = JobType.image) (hg2 : j2.gif_frames = some fs)
    (hfs : fs ≠ []) (_hi2 : j2.image = some f) :
    dispatch measure renderWeather cancel j fuel = ([], Outcome.finished) ∧
    workerRun measure renderWeather cancel fuel (j :: rest)
      = ((j.id, []) :: (workerRun measure renderWeather cancel fuel rest).1,
         (workerRun measure renderWeather cancel fuel rest).2) ∧
    dispatch measure renderWeather cancel j2 fuel
      = gifRun cancel j2.duration fs
          (delaysOrDefault j2.frame_delays fs.length) 0 0 0 fuel := by
  have hdisp : dispatch measure renderWeather cancel j fuel
      = ([], Outcome.finished) := by
    simp [dispatch, ht, hi, hg, truthyFrames]
  refine ⟨hdisp, ?_, ?_⟩
  · simp [workerRun, hdisp]
  · simp [dispatch, ht2, hg2, truthyFrames, hfs]

/-- Witness for C10: a bare IMAGE job (id 1) followed by a CLEAR job, and an
IMAGE job carrying both a still image and one animation frame. -/
theorem C10_witness :
    dispatch (fun _ => 50) (fun _ => 0) (fun _ => false)
      { type := JobType.image, id := 1 } 3 = ([], Outcome.finished) ∧
    workerRun (fun _ => 50) (fun _ => 0) (fun _ => false) 3
      [{ type := JobType.image, id := 1 }, { type := JobType.clear, id := 2 }]
      = ((1, []) :: (workerRun (fun _ => 50) (fun _ => 0) (fun _ => false) 3
            [{ type := JobType.clear, id := 2 }]).1,
         (workerRun (fun _ => 50) (fun _ => 0) (fun _ => false) 3
            [{ type := JobType.clear, id := 2 }]).2) ∧
    dispatch (fun _ => 50) (fun _ => 0) (fun _ => false)
      { type := JobType.image, id := 3, image := some 8,
        gif_frames := some [9] } 3
      = gifRun (fun _ => false) none [9] (delaysOrDefault none 1) 0 0 0 3 :=
  C10_image_missing_payload (fun _ => 50) (fun _ => 0) (fun _ => false) 3
    { type := JobType.image, id := 1 }
    { type := JobType.image, id := 3, image := some 8,
      gif_frames := some [9] }
    [{ type := JobType.clear, id := 2 }] [9] 8
    rfl rfl rfl rfl rfl (by simp) rfl

/-- Python str.strip() with no argument: drop leading and trailing
whitespace. -/
def pyStrip (s : String) : String :=
  String.mk (((s.data.dropWhile Char.isWhitespace).reverse.dropWhile
    Char.isWhitespace).reverse)

/-- POST /matrix/show/text (app.py lines 292-297): reject with HTTP 400 when
the stripped text is falsy (empty), otherwise enqueue a TEXT job and answer
ok with the job id.  The manager state is returned unchanged on the error
path. -/
def showTextEndpoint (text : String) (duration : Option ℚ) (s : MState) :
    Except Nat (Bool × Nat) × MState :=
  if pyStrip text = "" then (Except.error 400, s)
  else
    let p := enqueue s { type := JobType.text, text := some text,
                         duration := duration }
    (Except.ok (true, p.1), p.2)

/-- POST /matrix/show/image after the external fetch and decode (app.py
lines 271-290): an animated source enqueues the extracted frames and delays
with image=None, a still source enqueues the converted image; the response
carries ok, the job id and the animated flag. -/
def showImageEndpoint (decoded : Option (List Nat × List ℚ)) (still : Nat)
    (duration : Option ℚ) (s : MState) : (Bool × Nat × Bool) × MState :=
  match decoded with
  | some fd =>
    let p := enqueue s { type := JobType.image, duration := duration,
                         gif_frames := some fd.1, frame_delays := some fd.2 }
    ((true, p.1, true), p.2)
  | none =>
    let p := enqueue s { type := JobType.image, duration := duration,
                         image := some still }
    ((true, p.1, false), p.2)

/-- POST /matrix/show/weather (app.py lines 299-303): enqueue a WEATHER
job. -/
def showWeatherEndpoint (template : String) (duration : Option ℚ)
    (s : MState) : (Bool × Nat) × MState :=
  let p := enqueue s { type := JobType.weather, template := some template,
                       duration := duration }
  ((true, p.1), p.2)

/-- One request served by the FastAPI layer (app.py lines 243-303). -/
inductive HandlerCall where
  | showImage (decoded : Option (List Nat × List ℚ)) (still : Nat)
      (duration : Option ℚ)
  | showText (text : String) (duration : Option ℚ)
  | showWeather (template : String) (duration : Option ℚ)
  | clearPost
  | stopPost
  | statusGet
deriving DecidableEq

/-- The effect of one request handler on the manager state.  Every handler
body only calls enqueue, stop_current or status — none contains a SetImage
or Clear call on the matrix. -/
def applyHandler (h : HandlerCall) (s : MState) : MState :=
  match h with
  | HandlerCall.showImage dec still d => (showImageEndpoint dec still d s).2
  | HandlerCall.showText t d => (showTextEndpoint t d s).2
  | HandlerCall.showWeather t d => (showWeatherEndpoint t d s).2
  | HandlerCall.clearPost => clearManager s
  | HandlerCall.stopPost => stopCurrent s
  | HandlerCall.statusGet => s

/-- Which thread performed a sink write: the single long-lived worker thread
started in DisplayManager.__init__ (app.py lines 81-82), or one of the
pi_server.py per-request threads, identified by spawn order. -/
inductive Source where
  | worker
  | requestThread (tid : Nat)
deriving DecidableEq, Repr

/-- app.py system state: the manager state plus the sink trace, each event
tagged with the thread that performed it. -/
structure SysState where
  ms : MState := {}
  sinkTrace : List (Source × GEv) := []

/-- A step of the app.py system: a request handler runs (appending nothing
to the sink trace, since no handler touches the matrix), or the worker pops
a job, renders for its current job, or finishes it. -/
inductive SysAct where
  | req (h : HandlerCall)
  | workerPop
  | workerRender (fuel : Nat)
  | workerFinish

def sysStep (measure renderWeather : String → Nat) (cancel : Nat → Bool)
    (st : SysState) : SysAct → SysState
  | SysAct.req h => { st with ms := applyHandler h st.ms }
  | SysAct.workerPop => { st with ms := applyAct st.ms Act.pop }
  | SysAct.workerRender fuel =>
    match st.ms.currentJob with
    | some j =>
      let evs := (dispatch measure renderWeather cancel j fuel).1.map
        (fun ev => (Source.worker, ev))
      { st with sinkTrace := st.sinkTrace ++ evs }
    | none => st
  | SysAct.workerFinish => { st with ms := applyAct st.ms Act.finish }

def sysRun (measure renderWeather : String → Nat) (cancel : Nat → Bool)
    (st : SysState) (acts : List SysAct) : SysState :=
  acts.foldl (sysStep measure renderWeather cancel) st

theorem sysStep_sources (measure renderWeather : String → Nat)
    (cancel : Nat → Bool) (st : SysState) (a : SysAct)
    (h : ∀ p ∈ st.sinkTrace, p.1 = Source.worker) :
    ∀ p ∈ (sysStep measure renderWeather cancel st a).sinkTrace,
      p.1 = Source.worker := by
  cases a with
  | req hc => simpa [sysStep] using h
  | workerPop => simpa [sysStep] using h
  | workerRender fuel =>
    cases hc : st.ms.currentJob with
    | none => simpa [sysStep, hc] using h
    | some j =>
      intro p hp
      simp only [sysStep, hc, List.mem_append, List.mem_map] at hp
      rcases hp with hp | ⟨ev, _, hev⟩
      · exact h p hp
      · rw [← hev]
  | workerFinish => simpa [sysStep] using h

/-- C4 amended (the app.py variant): in the queued single-worker design,
every sink event of every reachable system trace is performed by the worker
thread — request handlers only enqueue jobs, set the cancellation event or
read status, and never write to the sink. -/
theorem C4_single_writer (measure renderWeather : String → Nat)
    (cancel : Nat → Bool) (acts : List SysAct) :
    ∀ p ∈ (sysRun measure renderWeather cancel {} acts).sinkTrace,
      p.1 = Source.worker := by
  suffices h : ∀ st : SysState, (∀ p ∈ st.sinkTrace, p.1 = Source.worker) →
      ∀ p ∈ (sysRun measure renderWeather cancel st acts).sinkTrace,
        p.1 = Source.worker by
    refine h {} ?_
    intro p hp
    simp at hp
  induction acts with
  | nil =>
    intro st h
    simpa [sysRun] using h
  | cons a rest ih =>
    intro st h
    have h1 := sysStep_sources measure renderWeather cancel st a h
    simpa [sysRun] using ih (sysStep measure renderWeather cancel st a) h1

/-- Witness for C4 at a concrete run: one show/image request, one worker
pop, one render step; the write that reaches the sink is the worker's. -/
theorem C4_witness :
    (Source.worker, GEv.write 7) ∈
      (sysRun (fun _ => 50) (fun _ => 0) (fun _ => false) {}
        [SysAct.req (HandlerCall.showImage none 7 none), SysAct.workerPop,
         SysAct.workerRender 1]).sinkTrace ∧
    (Source.worker, GEv.write 7).1 = Source.worker := by
  have hm : (Source.worker, GEv.write 7) ∈
      (sysRun (fun _ => 50) (fun _ => 0) (fun _ => false) {}
        [SysAct.req (HandlerCall.showImage none 7 none), SysAct.workerPop,
         SysAct.workerRender 1]).sinkTrace := by decide
  exact ⟨hm, C4_single_writer (fun _ => 50) (fun _ => 0) (fun _ => false)
    [SysAct.req (HandlerCall.showImage none 7 none), SysAct.workerPop,
     SysAct.workerRender 1] (Source.worker, GEv.write 7) hm⟩

/-- State of pi_server.py's MatrixHandler together with the per-request
threads it has spawned: threads are numbered in spawn order; a spawned
thread stays active until its worker body finishes.  pending holds the
spawned threads that have not yet performed their first sink write. -/
structure PiState where
  threadsSpawned : Nat := 0
  pending : List Nat := []
  active : List Nat := []
  sinkTrace : List (Source × GEv) := []
  stop_event : Bool := false
  current_job : Option String := none
deriving DecidableEq, Repr

/-- pi_server.py MatrixHandler.show_image_from_url (lines 39-76): clear the
stop event, set current_job, and start a NEW thread whose body fetches and
decodes the image and writes it to the matrix.  Every request spawns a fresh
thread; there is no queue and no mutual exclusion between them. -/
def piShowImage (ps : PiState) : PiState :=
  let tid := ps.threadsSpawned + 1
  { ps with threadsSpawned := tid, stop_event := false,
            current_job := some "image",
            pending := ps.pending ++ [tid], active := ps.active ++ [tid] }

/-- pi_server.py MatrixHandler.show_text (lines 78-109): the same
thread-per-request pattern for scrolling text. -/
def piShowText (ps : PiState) : PiState :=
  let tid := ps.threadsSpawned + 1
  { ps with threadsSpawned := tid, stop_event := false,
            current_job := some "text",
            pending := ps.pending ++ [tid], active := ps.active ++ [tid] }

/-- A scheduling step of spawned thread tid: the thread performs its first
sink write (the SetImage of the static branch of its worker body, with the
externally decoded frame still) if it has not yet done so.  Several spawned
threads can be active at once, so writes from different request threads
interleave at the sink. -/
def piThreadWrite (tid still : Nat) (ps : PiState) : PiState :=
  if tid ∈ ps.pending then
    { ps with pending := ps.pending.erase tid,
              sinkTrace := ps.sinkTrace ++
                [(Source.requestThread tid, GEv.write still)] }
  else ps

/-- C4 counterexample: in the pi_server.py variant two POST show/image
requests spawn two writer threads; both are still active when each performs
its sink write, so the sink receives writes from two distinct concurrently
running per-request threads, neither of which is a single long-lived
worker — the claimed single-writer invariant fails on this variant. -/
theorem C4_counterexample :
    (piThreadWrite 2 8 (piThreadWrite 1 7
        (piShowImage (piShowImage {})))).sinkTrace
      = [(Source.requestThread 1, GEv.write 7),
         (Source.requestThread 2, GEv.write 8)] ∧
    (piThreadWrite 2 8 (piThreadWrite 1 7
        (piShowImage (piShowImage {})))).active = [1, 2] ∧
    Source.requestThread 1 ≠ Source.requestThread 2 ∧
    Source.requestThread 1 ≠ Source.worker := by
  refine ⟨by decide, by decide, by decide, by decide⟩

/-- Enqueue a list of jobs in order, collecting the returned ids
(sequential calls to DisplayManager.enqueue). -/
def enqueueAll (s : MState) : List Job → List Nat × MState
  | [] => ([], s)
  | j :: rest =>
    let p := enqueue s j
    let q := enqueueAll p.2 rest
    (p.1 :: q.1, q.2)

/-- C5 amended: sequential enqueues return the consecutive ids nextId,
nextId+1, ... drawn from the manager's single counter — strictly increasing,
hence unique and never reused — append the jobs with their assigned ids to
the back of the FIFO queue in order, and never fail: enqueue is a total
function that performs no validation (the InvalidJobError of the claim does
not exist in the code, and enqueue never blocks: queue.Queue.put on an
unbounded queue returns immediately). -/
theorem C5_enqueue_ids (s : MState) (jobs : List Job) :
    (enqueueAll s jobs).1 = List.range' s.nextId jobs.length ∧
    (enqueueAll s jobs).1.Pairwise (· < ·) ∧
    (enqueueAll s jobs).2.nextId = s.nextId + jobs.length ∧
    (enqueueAll s jobs).2.jobQ.map Job.id
      = s.jobQ.map Job.id ++ List.range' s.nextId jobs.length := by
  have main : ∀ (js : List Job) (t : MState),
      (enqueueAll t js).1 = List.range' t.nextId js.length ∧
      (enqueueAll t js).2.nextId = t.nextId + js.length ∧
      (enqueueAll t js).2.jobQ.map Job.id
        = t.jobQ.map Job.id ++ List.range' t.nextId js.length := by
    intro js
    induction js with
    | nil =>
      intro t
      simp [enqueueAll]
    | cons j rest ih =>
      intro t
      obtain ⟨ih1, ih2, ih3⟩ := ih (enqueue t j).2
      have hid : (enqueue t j).1 = t.nextId := rfl
      have hnext : (enqueue t j).2.nextId = t.nextId + 1 := rfl
      have hq : (enqueue t j).2.jobQ.map Job.id
          = t.jobQ.map Job.id ++ [t.nextId] := by
        simp [enqueue, nextJobId]
      refine ⟨?_, ?_, ?_⟩
      · simp only [enqueueAll, List.length_cons]
        rw [ih1, hnext, hid, List.range'_succ]
      · simp only [enqueueAll, List.length_cons]
        rw [ih2, hnext]
        omega
      · simp only [enqueueAll, List.length_cons]
        rw [ih3, hq, hnext, List.range'_succ]
        simp
  obtain ⟨h1, h2, h3⟩ := main jobs s
  refine ⟨h1, ?_, h2, h3⟩
  rw [h1]
  simp [List.pairwise_lt_range']

/-- Modelled from the spec: the §3 Job invariants the claim says enqueue
enforces — duration, if present, strictly positive; a non-empty payload for
Image/AnimatedImage/Text/Weather; no payload for Clear/Noop.  app.py
contains no such check and no InvalidJobError; this predicate exists only to
compare the claim against the code. -/
def specJobValid (j : Job) : Bool :=
  (match j.duration with
   | none => true
   | some d => decide (0 < d)) &&
  (match j.type with
   | JobType.image => truthyFrames j.gif_frames || j.image.isSome
   | JobType.text =>
     match j.text with
     | none => false
     | some t => t != ""
   | JobType.weather => j.template.isSome
   | JobType.clear => j.image.isNone && j.gif_frames.isNone &&
       j.text.isNone && j.template.isNone
   | JobType.noop => j.image.isNone && j.gif_frames.isNone &&
       j.text.isNone && j.template.isNone)

/-- C5 counterexample: enqueue never fails.  The job below violates the §3
invariants (non-positive duration, and an IMAGE job with neither payload),
yet DisplayManager.enqueue accepts it, returns id 1 and appends it to the
queue — no InvalidJobError is signalled anywhere. -/
theorem C5_counterexample :
    specJobValid { type := JobType.image, duration := some (-1) } = false ∧
    (enqueue initState { type := JobType.image, duration := some (-1) }).1
      = 1 ∧
    (enqueue initState { type := JobType.image, duration := some (-1) }).2.jobQ
      = [{ type := JobType.image, duration := some (-1), id := 1 }] := by
  refine ⟨by decide, rfl, rfl⟩

/-- pi_server.py do_POST for /matrix/show/text (lines 174-181): text is read
from the JSON body; a missing or empty (falsy) text gets an ok:false
response — still sent with HTTP status 200 — and starts nothing; any other
text, including whitespace-only, starts a display job via show_text. -/
def piShowTextPost (text : Option String) (ps : PiState) :
    (Nat × Bool) × PiState :=
  match text with
  | none => ((200, false), ps)
  | some t =>
    if t = "" then ((200, false), ps) else ((200, true), piShowText ps)

/-- C9 counterexample: a whitespace-only show/text request is NOT rejected
by pi_server.py: " " is truthy in Python, so do_POST calls show_text, which
spawns a writer thread and answers ok:true with HTTP 200 — a job starts
even though the claim requires a client error and no enqueued job. -/
theorem C9_counterexample :
    (piShowTextPost (some " ") {}).1 = (200, true) ∧
    (piShowTextPost (some " ") {}).2.active = [1] ∧
    (piShowTextPost (some " ") {}).2.current_job = some "text" := by
  refine ⟨rfl, rfl, rfl⟩

/-- C9 amended: in app.py a show/text request whose text is empty or
whitespace-only is rejected with a client error (HTTP 400) and nothing is
enqueued — the manager state, in particular the queue and the id counter,
is unchanged; in pi_server.py a whitespace-only text is NOT rejected:
do_POST answers ok:true and show_text starts a display job. -/
theorem C9_empty_text (s : MState) (text : String) (d : Option ℚ)
    (h : pyStrip text = "") :
    (showTextEndpoint text d s).1 = Except.error 400 ∧
    (showTextEndpoint text d s).2 = s ∧
    (piShowTextPost (some " ") {}).1 = (200, true) ∧
    (piShowTextPost (some " ") {}).2.active = [1] ∧
    (piShowTextPost (some " ") {}).2.current_job = some "text" := by
  refine ⟨?_, ?_, rfl, rfl, rfl⟩ <;> simp [showTextEndpoint, h]

/-- Witness for C9: the whitespace-only text of two blanks is rejected by
the app.py endpoint with the state unchanged, while pi_server accepts a
single blank and starts a text job. -/
theorem C9_witness :
    (showTextEndpoint "  " (some 10) initState).1 = Except.error 400 ∧
    (showTextEndpoint "  " (some 10) initState).2 = initState ∧
    (piShowTextPost (some " ") {}).1 = (200, true) ∧
    (piShowTextPost (some " ") {}).2.active = [1] ∧
    (piShowTextPost (some " ") {}).2.current_job = some "text" :=
  C9_empty_text initState "  " (some 10) (by decide)

end RGBMatrixApp
